import Mathlib

/-
Verification of the matplotlib annotation-rendering module
(holoviews/plotting/mpl/annotation.py) against its natural-language
specification.

Shallow embedding conventions:
* matplotlib artists (lines, patches, text objects) are identified by
  natural-number handles; the canvas is the list of handles currently
  registered on the axis;
* Python floats are modelled as rationals (ℚ); numpy arrays as lists;
* numpy in-place mutation (`+=` on arrays) is modelled by rebinding the
  let-bound array and resolving references at the point of use;
* a raised Python exception is modelled with `Except` / a `PyError` value;
  `np.NaN` sentinels are modelled with `Option` (`none` = NaN);
* Python strings are modelled as `List Char`.
-/

namespace AnnotMpl

/-! ### AnnotationPlot handle lifecycle (update_handles)

`AnnotationPlot.__init__` sets `self.handles['annotations'] = []`.
`update_handles` first loops over the stored handles calling
`element.remove()` (which removes the artist from the canvas), then
re-invokes `draw_annotation` and stores the list it returns.  The kind
renderers (`axvline`, `axhspan`, `text`, ...) create brand-new artists on
every call; we abstract one frame's draw call by the number `k` of fresh
primitives it creates. -/

/-- State of one AnnotationPlot instance together with its axis canvas:
`canvas` is the list of artist handles registered on the axis, `annots`
is `self.handles['annotations']`, and `fresh` is the next unused artist
handle (matplotlib never reuses artist identities). -/
structure AnnState where
  canvas : List Nat
  annots : List Nat
  fresh : Nat
  deriving Repr, DecidableEq

/-- One `element.remove()` call: the artist disappears from the canvas. -/
def removeArtist (canvas : List Nat) (h : Nat) : List Nat :=
  canvas.filter (fun a => a != h)

/-- The removal loop `for element in self.handles[...]: element.remove()`. -/
def removeAll (canvas : List Nat) (hs : List Nat) : List Nat :=
  hs.foldl removeArtist canvas

/-- One frame's `draw_annotation` call creating `k` brand-new primitives:
returns the list of fresh handles it hands back. -/
def drawFresh (fresh k : Nat) : List Nat :=
  (List.range k).map (fun i => fresh + i)

/-- `AnnotationPlot.update_handles`: clear all existing stored artists from
the canvas, redraw, and store the newly returned handle list. -/
def updateHandles (s : AnnState) (k : Nat) : AnnState :=
  ⟨removeAll s.canvas s.annots ++ drawFresh s.fresh k, drawFresh s.fresh k, s.fresh + k⟩

/-- State right after `AnnotationPlot.__init__`: no artists yet and
`self.handles['annotations'] = []`. -/
def initState : AnnState := ⟨[], [], 0⟩

/-- A whole sequence of `update` calls, `ks` listing how many primitives
each frame's draw call creates. -/
def runUpdates (s : AnnState) (ks : List Nat) : AnnState :=
  ks.foldl updateHandles s

theorem mem_removeArtist (c : List Nat) (h a : Nat) :
    a ∈ removeArtist c h ↔ a ∈ c ∧ a ≠ h := by
  simp [removeArtist]

theorem mem_removeAll (hs : List Nat) (c : List Nat) (a : Nat) :
    a ∈ removeAll c hs ↔ a ∈ c ∧ a ∉ hs := by
  induction hs generalizing c with
  | nil => simp [removeAll]
  | cons h t ih =>
    have step : removeAll c (h :: t) = removeAll (removeArtist c h) t := rfl
    rw [step, ih, mem_removeArtist]
    simp only [List.mem_cons]
    tauto

theorem removeAll_self (hs : List Nat) : removeAll hs hs = [] := by
  rw [List.eq_nil_iff_forall_not_mem]
  intro a ha
  rw [mem_removeAll] at ha
  exact ha.2 ha.1

theorem removeAll_nil (c : List Nat) : removeAll c [] = c := rfl

theorem drawFresh_nodup (fresh k : Nat) : (drawFresh fresh k).Nodup := by
  refine List.Nodup.map ?_ (List.nodup_range k)
  intro i j hij
  exact Nat.add_left_cancel hij

theorem drawFresh_length (fresh k : Nat) : (drawFresh fresh k).length = k := by
  simp [drawFresh]

theorem updateHandles_sameCanvas (s : AnnState) (k : Nat)
    (h : s.canvas = s.annots) :
    (updateHandles s k).canvas = (updateHandles s k).annots := by
  simp [updateHandles, h, removeAll_self]

theorem runUpdates_sameCanvas (ks : List Nat) :
    (runUpdates initState ks).canvas = (runUpdates initState ks).annots := by
  suffices h : ∀ s : AnnState, s.canvas = s.annots →
      (runUpdates s ks).canvas = (runUpdates s ks).annots by
    exact h initState rfl
  induction ks with
  | nil => intro s hs; exact hs
  | cons k t ih =>
    intro s hs
    exact ih (updateHandles s k) (updateHandles_sameCanvas s k hs)

/-- C1: after every `update_handles` call in any sequence of updates, the
stored handle list equals exactly the list of primitives the current
frame's draw call returned, the canvas carries no previous-frame handle
(it equals the stored list), the stored handles contain no duplicate, and
the removal loop is a no-op when there are zero prior handles. -/
theorem updateHandles_C1 (ks : List Nat) (k : Nat) :
    (updateHandles (runUpdates initState ks) k).annots
      = drawFresh (runUpdates initState ks).fresh k ∧
    (updateHandles (runUpdates initState ks) k).canvas
      = (updateHandles (runUpdates initState ks) k).annots ∧
    (updateHandles (runUpdates initState ks) k).annots.Nodup ∧
    (updateHandles (runUpdates initState ks) k).annots.length = k ∧
    (∀ c : List Nat, removeAll c [] = c) := by
  refine ⟨rfl, ?_, ?_, ?_, removeAll_nil⟩
  · exact updateHandles_sameCanvas _ k (runUpdates_sameCanvas ks)
  · exact drawFresh_nodup _ k
  · exact drawFresh_length _ k

/-! ### ABLine2D: the dynamically limit-tracking slope line

`ABLine2D._update_lim(event)` does:
`x = np.array(self.axes.get_xbound())`,
`y = (self._slope * x) + self._intercept`,
`self.set_data(x, y)`, `self.axes.draw_artist(self)`. -/

/-- Redraw requests an artist can issue against the canvas: either an
immediate redraw of one single artist (`axes.draw_artist`) or a full
canvas redraw (`figure.canvas.draw`). -/
inductive CanvasEvent
  | drawArtist (id : Nat)
  | fullCanvasDraw
  deriving Repr, DecidableEq

/-- The mutable state of one ABLine2D artist: its identity, the slope and
intercept captured at construction, and the coordinate data stored by the
last `set_data` call. -/
structure ABLine where
  id : Nat
  slope : ℚ
  intercept : ℚ
  xdata : List ℚ
  ydata : List ℚ
  deriving Repr, DecidableEq

/-- `ABLine2D._update_lim`: reads the two current x-bounds, recomputes
`y = slope * x + intercept` for both, stores the coordinate pair via
`set_data`, and requests a redraw of just this artist. Returns the new
artist state together with the redraw requests issued. -/
def updateLim (l : ABLine) (xbound : ℚ × ℚ) : ABLine × List CanvasEvent :=
  let x : List ℚ := [xbound.1, xbound.2]
  let y : List ℚ := x.map (fun xi => l.slope * xi + l.intercept)
  (⟨l.id, l.slope, l.intercept, x, y⟩, [CanvasEvent.drawArtist l.id])

/-- C2: for every ABLine2D with slope `m` and intercept `b` and every
x-bound change to `[x0, x1]`, the recompute callback stores endpoints
whose y-values are exactly `m*x0+b` and `m*x1+b`, and the only redraw it
requests is of this one artist (no full-canvas redraw). -/
theorem updateLim_C2 (l : ABLine) (x0 x1 : ℚ) :
    (updateLim l (x0, x1)).1.xdata = [x0, x1] ∧
    (updateLim l (x0, x1)).1.ydata
      = [l.slope * x0 + l.intercept, l.slope * x1 + l.intercept] ∧
    (updateLim l (x0, x1)).2 = [CanvasEvent.drawArtist l.id] := by
  refine ⟨rfl, ?_, rfl⟩
  simp [updateLim]

/-! ### SlopePlot.draw_annotation

Source:
```
gradient, intercept = position
if self.invert_axes:
    if gradient == 0:
        gradient = np.inf, np.inf
    else:
        gradient, intercept = 1/gradient, -(intercept/gradient)
artist = ABLine2D(*position, axes=axis, **opts)
return [artist]
```
The inverted branch rebinds the LOCAL variables `gradient`/`intercept`
(for slope 0 it even rebinds `gradient` to the tuple `(inf, inf)`), but
the artist is constructed with `*position`, the ORIGINAL untransformed
pair. -/

/-- Result of one `SlopePlot.draw_annotation` call: the slope and
intercept actually passed to the `ABLine2D` constructor, together with
the final value of the rebound local pair computed by the inverted-axes
branch (`none` encodes the `(np.inf, np.inf)` placeholder, which has no
rational value; when not inverted the locals keep the input pair). -/
structure SlopeDrawResult where
  artistSlope : ℚ
  artistIntercept : ℚ
  invLocals : Option (ℚ × ℚ)
  deriving Repr, DecidableEq

/-- `SlopePlot.draw_annotation` with the host's `invert_axes` flag. -/
def slopeDraw (invert : Bool) (position : ℚ × ℚ) : SlopeDrawResult :=
  let gradient := position.1
  let intercept := position.2
  let locals : Option (ℚ × ℚ) :=
    if invert then
      if gradient = 0 then none
      else some (1 / gradient, -(intercept / gradient))
    else some (gradient, intercept)
  ⟨position.1, position.2, locals⟩

/-- C4: the artist constructed by `SlopePlot.draw_annotation` is built
from the original `(slope, intercept)` pair whether or not the axes are
inverted — the transformed pair the inverted branch computes is
discarded, so inverted and non-inverted calls construct the same line. -/
theorem slopeDraw_C4 (position : ℚ × ℚ) :
    (slopeDraw true position).artistSlope = (slopeDraw false position).artistSlope ∧
    (slopeDraw true position).artistIntercept
      = (slopeDraw false position).artistIntercept ∧
    (slopeDraw true position).artistSlope = position.1 ∧
    (slopeDraw true position).artistIntercept = position.2 := by
  exact ⟨rfl, rfl, rfl, rfl⟩

/-- C3 counterexample: with inverted axes the drawn line is NOT the
axis-swapped transform of the input.  For input `(2, 3)` the swapped
transform is `(1/2, -3/2)`, yet the constructed artist keeps slope `2`:
tracking the x-bounds `(0, 1)` it stores endpoints `(0,3)` and `(1,5)`,
whereas the swapped line would store y-values `-3/2` and `-1`.  And for
the slope-0 input `(0, 3)` the artist keeps slope `0`: on the same
bounds it stores the horizontal pair `(0,3)`, `(1,3)` — not an
effectively vertical (infinite-slope) line. -/
theorem slopeDraw_C3_cx :
    (slopeDraw true (2, 3)).artistSlope = 2 ∧
    (slopeDraw true (2, 3)).artistSlope ≠ 1 / 2 ∧
    (updateLim ⟨0, (slopeDraw true (2, 3)).artistSlope,
        (slopeDraw true (2, 3)).artistIntercept, [], []⟩ (0, 1)).1.ydata
      = [3, 5] ∧
    (slopeDraw true (0, 3)).artistSlope = 0 ∧
    (updateLim ⟨0, (slopeDraw true (0, 3)).artistSlope,
        (slopeDraw true (0, 3)).artistIntercept, [], []⟩ (0, 1)).1.xdata
      = [0, 1] ∧
    (updateLim ⟨0, (slopeDraw true (0, 3)).artistSlope,
        (slopeDraw true (0, 3)).artistIntercept, [], []⟩ (0, 1)).1.ydata
      = [3, 3] := by
  refine ⟨rfl, by norm_num [slopeDraw], ?_, rfl, rfl, ?_⟩
  · simp [slopeDraw, updateLim]
    norm_num
  · simp [slopeDraw, updateLim]

/-- C3 amended: when inverted and slope = 0, the branch takes the guarded
path that assigns the infinity placeholder without performing any
division, but the computed pair is discarded: the artist is built from
the original `(0, intercept)` — the same line as in the non-inverted
call, a horizontal (slope-0) line, not a vertical one. -/
theorem slopeDraw_C3_amended (b x0 x1 : ℚ) :
    (slopeDraw true (0, b)).invLocals = none ∧
    (slopeDraw true (0, b)).artistSlope = 0 ∧
    (slopeDraw true (0, b)).artistIntercept = b ∧
    (slopeDraw true (0, b)).artistSlope = (slopeDraw false (0, b)).artistSlope ∧
    (updateLim ⟨0, (slopeDraw true (0, b)).artistSlope,
        (slopeDraw true (0, b)).artistIntercept, [], []⟩ (x0, x1)).1.ydata
      = [b, b] := by
  refine ⟨by simp [slopeDraw], rfl, rfl, rfl, ?_⟩
  simp [slopeDraw, updateLim]

/-! ### LabelsPlot: color resolution inside init_artists.text_spec

Source (`init_artists`): `colors = list(np.unique(plot_args[-1]))` and, in
`text_spec`, for a point's color value `color`:
```
if plot_args[-1].dtype.kind in 'if':
    color = (color - vmin) / (vmax-vmin)
    plot_kwargs['color'] = cmap(color)
else:
    color = colors.index(color) if color in colors else np.NaN
    plot_kwargs['color'] = cmap(color)
```
Category labels (the non-numeric dtype case) are modelled as integers,
whose total order stands for the sort order `np.unique` applies. -/

/-- Insert a value into a sorted duplicate-free list, keeping it sorted
and duplicate-free (the building block of the `np.unique` model). -/
def insertUniqueSorted (x : Int) : List Int → List Int
  | [] => [x]
  | y :: ys =>
    if x < y then x :: y :: ys
    else if x = y then y :: ys
    else y :: insertUniqueSorted x ys

/-- `np.unique(values)`: the sorted list of distinct values. -/
def npUnique (vals : List Int) : List Int :=
  vals.foldr insertUniqueSorted []

/-- The categorical arm of `text_spec`:
`colors.index(color) if color in colors else np.NaN`, with `none`
standing for the `np.NaN` "no color" sentinel. -/
def resolveCat (colors : List Int) (c : Int) : Option Nat :=
  if c ∈ colors then some (colors.indexOf c) else none

theorem mem_insertUniqueSorted (x a : Int) (l : List Int) :
    a ∈ insertUniqueSorted x l ↔ a = x ∨ a ∈ l := by
  induction l with
  | nil => simp [insertUniqueSorted]
  | cons y ys ih =>
    by_cases h1 : x < y
    · simp [insertUniqueSorted, h1]
    · by_cases h2 : x = y
      · subst h2
        simp [insertUniqueSorted, h1]
      · simp only [insertUniqueSorted, if_neg h1, if_neg h2, List.mem_cons, ih]
        tauto

theorem mem_npUnique (vals : List Int) (a : Int) :
    a ∈ npUnique vals ↔ a ∈ vals := by
  induction vals with
  | nil => simp [npUnique]
  | cons v t ih =>
    have step : npUnique (v :: t) = insertUniqueSorted v (npUnique t) := rfl
    rw [step, mem_insertUniqueSorted, ih]
    simp [List.mem_cons]

/-- C5: categorical color resolution is a pure function of the value and
the ordered unique-value list: a value occurring among the data maps to
the index of its first occurrence in `np.unique`'s ordered unique-value
list (the same index on every call), and a value absent from the data
maps to the NaN "no color" sentinel. -/
theorem resolveCat_C5 (vals : List Int) (v : Int) :
    (v ∈ vals → resolveCat (npUnique vals) v
        = some ((npUnique vals).indexOf v)) ∧
    (v ∉ vals → resolveCat (npUnique vals) v = none) := by
  constructor
  · intro h
    have hm : v ∈ npUnique vals := (mem_npUnique vals v).mpr h
    simp [resolveCat, hm]
  · intro h
    have hm : v ∉ npUnique vals := fun hc => h ((mem_npUnique vals v).mp hc)
    simp [resolveCat, hm]

/-- C5 witness: for data `[3, 1, 2, 1]` the ordered unique-value list is
`[1, 2, 3]`; the present value `2` resolves to index `1` and the unseen
value `4` resolves to the sentinel. -/
theorem resolveCat_C5_witness :
    ((2 : Int) ∈ [3, 1, 2, 1] ∧ npUnique [3, 1, 2, 1] = [1, 2, 3] ∧
      resolveCat (npUnique [3, 1, 2, 1]) 2 = some 1) ∧
    ((4 : Int) ∉ [3, 1, 2, 1] ∧ resolveCat (npUnique [3, 1, 2, 1]) 4 = none) := by
  refine ⟨⟨by decide, by decide, ?_⟩, ⟨by decide, ?_⟩⟩
  · have h := (resolveCat_C5 [3, 1, 2, 1] 2).1 (by decide)
    rw [h]
    decide
  · exact (resolveCat_C5 [3, 1, 2, 1] 4).2 (by decide)

/-- The continuous arm of `text_spec`:
`color = (color - vmin) / (vmax - vmin)` before the palette is applied. -/
def contColorNorm (v vmin vmax : ℚ) : ℚ :=
  (v - vmin) / (vmax - vmin)

/-- C6: with range `[vmin, vmax]` (vmin < vmax) every numeric color value
`v` is normalized to exactly `(v - vmin) / (vmax - vmin)` before the
palette is applied; the endpoints map to 0 and 1, and out-of-range
values pass through unclamped (above the range the result exceeds 1,
below it the result is negative). -/
theorem contColorNorm_C6 (v vmin vmax : ℚ) (h : vmin < vmax) :
    contColorNorm v vmin vmax = (v - vmin) / (vmax - vmin) ∧
    contColorNorm vmin vmin vmax = 0 ∧
    contColorNorm vmax vmin vmax = 1 ∧
    (vmax < v → 1 < contColorNorm v vmin vmax) ∧
    (v < vmin → contColorNorm v vmin vmax < 0) := by
  have hpos : (0 : ℚ) < vmax - vmin := by linarith
  refine ⟨rfl, by simp [contColorNorm], ?_, ?_, ?_⟩
  · exact div_self (ne_of_gt hpos)
  · intro hv
    exact (one_lt_div hpos).mpr (by linarith)
  · intro hv
    exact div_neg_of_neg_of_pos (by linarith) hpos

/-- C6 witness: with `vmin = 0`, `vmax = 10` the value `5` normalizes to
`1/2`, and the out-of-range value `11` normalizes above 1 (unclamped). -/
theorem contColorNorm_C6_witness :
    (0 : ℚ) < 10 ∧ contColorNorm 5 0 10 = (5 - 0) / (10 - 0) ∧
    contColorNorm 5 0 10 = 1 / 2 ∧ (10 : ℚ) < 11 ∧
    1 < contColorNorm 11 0 10 := by
  refine ⟨by norm_num, (contColorNorm_C6 5 0 10 (by norm_num)).1,
    by norm_num [contColorNorm], by norm_num,
    (contColorNorm_C6 11 0 10 (by norm_num)).2.2.2.1 (by norm_num)⟩

/-! ### LabelsPlot.get_data: constant offsets and axis swap

Source:
```
positions = (ys, xs) if self.invert_axes else (xs, ys)
if self.xoffset is not None:
    xs += self.xoffset
if self.yoffset is not None:
    ys += self.yoffset
...
return positions + (text, cs), style, {}
```
`positions` is a tuple of REFERENCES to the two numpy arrays; the later
`+=` operations mutate those arrays in place, so the tuple formed before
the offsets still observes them.  The model keeps the references (which
array each slot points at) and resolves them after the mutation. -/

/-- Relevant slice of `LabelsPlot.get_data`: returns the pair of position
arrays handed to the canvas.  The tuple `positions` stores references
(`true` = the ys array, `false` = the xs array) exactly as formed before
the offsets; the in-place `+=` is modelled by rebinding the arrays, and
the references are resolved on return. -/
def labelsGetData (invert : Bool) (xoff yoff : Option ℚ) (xs ys : List ℚ) :
    List ℚ × List ℚ :=
  let positions : Bool × Bool := if invert then (true, false) else (false, true)
  let xs := match xoff with
    | some o => xs.map (fun v => v + o)
    | none => xs
  let ys := match yoff with
    | some o => ys.map (fun v => v + o)
    | none => ys
  let deref : Bool → List ℚ := fun r => if r then ys else xs
  (deref positions.1, deref positions.2)

/-- C8: the configured constant offsets are applied to every one of the
point positions, and when the axes are inverted the position arrays
handed to the canvas are the swapped arrays WITH the offsets (the
in-place mutation is visible through the already-formed tuple). -/
theorem labelsGetData_C8 (a b : ℚ) (xs ys : List ℚ) :
    labelsGetData true (some a) (some b) xs ys
      = (ys.map (fun v => v + b), xs.map (fun v => v + a)) ∧
    labelsGetData false (some a) (some b) xs ys
      = (xs.map (fun v => v + a), ys.map (fun v => v + b)) ∧
    (labelsGetData true (some a) (some b) xs ys).2.length = xs.length ∧
    (labelsGetData true (some a) (some b) xs ys).1.length = ys.length := by
  refine ⟨rfl, rfl, ?_, ?_⟩ <;> simp [labelsGetData]

/-! ### SplinePlot.draw_annotation

Source:
```
verts, codes = data
if not len(verts):
    return []
patch = patches.PathPatch(matplotlib.path.Path(verts, codes), facecolor='none', **opts)
axis.add_patch(patch)
return [patch]
```
-/

/-- A `PathPatch` built from a vertex array and a path-command array. -/
structure SplinePatch where
  verts : List (ℚ × ℚ)
  codes : List Nat
  deriving Repr, DecidableEq

/-- `SplinePlot.draw_annotation`: returns the handle list together with
the canvas patch list after the call (the `axis.add_patch` effect). -/
def splineDraw (canvas : List SplinePatch) (verts : List (ℚ × ℚ))
    (codes : List Nat) : List SplinePatch × List SplinePatch :=
  if verts.length = 0 then ([], canvas)
  else ([⟨verts, codes⟩], canvas ++ [⟨verts, codes⟩])

/-- C9: a Spline draw call with an empty vertex array returns the empty
handle list and leaves the canvas untouched (no patch added), returning
normally rather than raising. -/
theorem splineDraw_C9 (canvas : List SplinePatch) (verts : List (ℚ × ℚ))
    (codes : List Nat) (h : verts = []) :
    splineDraw canvas verts codes = ([], canvas) := by
  subst h
  simp [splineDraw]

/-- C9 witness: the empty vertex array on a one-patch canvas. -/
theorem splineDraw_C9_witness :
    ([] : List (ℚ × ℚ)) = [] ∧
    splineDraw [⟨[(1, 2)], [1]⟩] [] [1] = ([], [⟨[(1, 2)], [1]⟩]) :=
  ⟨rfl, splineDraw_C9 [⟨[(1, 2)], [1]⟩] [] [1] rfl⟩

/-! ### ArrowPlot.draw_annotation

Source:
```
direction = direction.lower()
...
if direction in ['v', '^']:
    xytext = (0, points if direction=='v' else -points)
elif direction in ['>', '<']:
    xytext = (points if direction=='<' else -points, 0)
...
return [axis.annotate(text, xy=(x, y), textcoords='offset points',
                      xytext=xytext, ha="center", va="center", ...)]
```
For any other direction string `xytext` is never assigned, so evaluating
it in the `annotate` call raises `UnboundLocalError` before any
primitive is created. -/

/-- Python exceptions distinguished by the model: an arbitrary error
raised inside a renderer's draw call, and the unbound-local error raised
when a never-assigned local variable is read. -/
inductive PyError
  | drawFailure
  | unboundLocal
  deriving Repr, DecidableEq

/-- Python's `str.lower()` on a string modelled as a character list. -/
def pyLower (s : List Char) : List Char :=
  s.map Char.toLower

/-- `ArrowPlot.draw_annotation`, reduced to the direction dispatch: on
success returns the one-element list of created primitives, each
recorded by its text-offset pair `xytext`; when `xytext` was never
assigned, the `annotate` call raises before creating anything. -/
def arrowDraw (direction : List Char) (points : ℚ) :
    Except PyError (List (ℚ × ℚ)) :=
  let d := pyLower direction
  let xytext : Option (ℚ × ℚ) :=
    if d = ['v'] ∨ d = ['^'] then
      some (0, if d = ['v'] then points else -points)
    else if d = ['>'] ∨ d = ['<'] then
      some ((if d = ['<'] then points else -points), 0)
    else none
  match xytext with
  | some t => Except.ok [t]
  | none => Except.error PyError.unboundLocal

/-- C10: after lowercasing, direction `v` yields exactly one primitive
with offset `(0, +d)`, `^` yields `(0, -d)`, `<` yields `(+d, 0)`,
`>` yields `(-d, 0)`, and any other direction raises (the text-offset
local is never assigned) before any primitive is created. -/
theorem arrowDraw_C10 (direction : List Char) (p : ℚ) :
    (pyLower direction = ['v'] → arrowDraw direction p = Except.ok [(0, p)]) ∧
    (pyLower direction = ['^'] → arrowDraw direction p = Except.ok [(0, -p)]) ∧
    (pyLower direction = ['<'] → arrowDraw direction p = Except.ok [(p, 0)]) ∧
    (pyLower direction = ['>'] → arrowDraw direction p = Except.ok [(-p, 0)]) ∧
    (pyLower direction ≠ ['v'] → pyLower direction ≠ ['^'] →
      pyLower direction ≠ ['<'] → pyLower direction ≠ ['>'] →
      arrowDraw direction p = Except.error PyError.unboundLocal) := by
  refine ⟨?_, ?_, ?_, ?_, ?_⟩
  · intro h; simp [arrowDraw, h]
  · intro h; simp [arrowDraw, h]
  · intro h; simp [arrowDraw, h]
  · intro h; simp [arrowDraw, h]
  · intro h1 h2 h3 h4; simp [arrowDraw, h1, h2, h3, h4]

/-- C10 witness: the uppercase direction `V` lowercases to `v` and
produces one primitive at offset `(0, 7)`; the unknown direction `x`
raises before creating a primitive. -/
theorem arrowDraw_C10_witness :
    pyLower ['V'] = ['v'] ∧ arrowDraw ['V'] 7 = Except.ok [(0, 7)] ∧
    arrowDraw ['x'] 7 = Except.error PyError.unboundLocal := by
  refine ⟨by decide, (arrowDraw_C10 ['V'] 7).1 (by decide), ?_⟩
  exact (arrowDraw_C10 ['x'] 7).2.2.2.2 (by decide) (by decide) (by decide)
    (by decide)

/-! ### AnnotationPlot.initialize_plot and the draw failure path

Source:
```
with abbreviated_exception():
    handles = self.draw_annotation(axis, annotation.data, opts)
self.handles['annotations'] = handles
return self._finalize_axis(key, element=annotation, ranges=ranges)
```
`abbreviated_exception` lives in core.options, outside this module.  The
local `handles` is bound INSIDE the guarded block, while the statement
that stores it (and the return) sit AFTER the block: if the block's body
raised and the exception is swallowed, the local is never bound and the
very next statement raises `NameError`/`UnboundLocalError`. -/

/-- Modelled from the spec: `abbreviated_exception` (from core.options,
not under src) "catches" any failure raised inside its block, reporting
it "as a non-fatal styling diagnostic" so that execution continues after
the block; it produces no substitute value for assignments the block
never executed (`none`). -/
def abbrevExcept (r : Except PyError (List Nat)) : Option (List Nat) :=
  match r with
  | Except.ok hs => some hs
  | Except.error _ => none

/-- Outcome of one `initialize_plot` call: the final value of
`self.handles['annotations']` and either the axis-finalization return
(`Except.ok ()` stands for the `_finalize_axis` result) or the Python
error that escaped the call. -/
structure InitOutcome where
  stored : List Nat
  result : Except PyError Unit
  deriving Repr

/-- `AnnotationPlot.initialize_plot`, reduced to the draw/store/return
sequence: `draw` is the outcome of the guarded `draw_annotation` call and
`stored0` the prior value of `self.handles['annotations']` (set to `[]`
by `__init__`).  When the guarded block suppressed a failure, the local
`handles` was never bound, so the store statement after the block raises
the unbound-local error and `_finalize_axis` is never reached. -/
def initPlot (draw : Except PyError (List Nat)) (stored0 : List Nat) :
    InitOutcome :=
  match abbrevExcept draw with
  | some hs => ⟨hs, Except.ok ()⟩
  | none => ⟨stored0, Except.error PyError.unboundLocal⟩

/-- The draw outcome `initialize_plot` receives from
`ArrowPlot.draw_annotation`: one fresh handle per created primitive, or
the error the draw call raised. -/
def arrowDrawHandles (direction : List Char) (points : ℚ) :
    Except PyError (List Nat) :=
  match arrowDraw direction points with
  | Except.ok prims => Except.ok (List.range prims.length)
  | Except.error e => Except.error e

/-- C7 failing-input evaluation: an Arrow whose direction string is `x`
makes `draw_annotation` raise; the guarded block reports and swallows
that failure, but `initialize_plot` then raises the unbound-local error
at the store statement instead of returning the axis finalization data —
the stored handle list merely keeps its initial empty value.  On a
successful draw the call does return the finalization data. -/
theorem initPlot_C7 :
    arrowDrawHandles ['x'] 1 = Except.error PyError.unboundLocal ∧
    initPlot (arrowDrawHandles ['x'] 1) []
      = ⟨[], Except.error PyError.unboundLocal⟩ ∧
    initPlot (arrowDrawHandles ['v'] 1) [] = ⟨[0], Except.ok ()⟩ := by
  exact ⟨rfl, rfl, rfl⟩

end AnnotMpl
